import Mathlib

/-!
Verification of the Dev-planet real-time code-analysis client.

Shallow embedding of:
* the Local Fallback Analyzer (`performLocalAnalysis` in
  `src/components/AlgoNebulaContent.tsx`),
* the real-time analysis hook (`useRealTimeAnalysis` in the unnamed hook
  source file: `handleMessage`, `startSession`, achievement buffer,
  rolling updates log),
* the WebSocket client of `src/lib/api.ts` (`sendWebSocketMessage`,
  `attemptReconnect`, `startHeartbeat`, `disconnectWebSocket`).

JavaScript numbers that occur in these code paths are nonnegative
integers (string lengths, integer divisions via Math.floor on
nonnegative values, additive bonuses, counters), so they are embedded
as `Nat`; the `Math.max 0` / `Math.min` clamps of the source are kept
verbatim as `max 0` / `min`.
-/

/-- Character-list prefix test (`pat` is a prefix of the second list). -/
def charsPrefix : List Char → List Char → Bool
  | [], _ => true
  | _ :: _, [] => false
  | a :: ps, b :: ss => a == b && charsPrefix ps ss

/-- Character-list infix test (`pat` occurs contiguously in the list). -/
def charsInfix (pat : List Char) : List Char → Bool
  | [] => charsPrefix pat []
  | b :: ss => charsPrefix pat (b :: ss) || charsInfix pat ss

/-- Substring containment, the embedding of JavaScript
`codeText.includes(pat)`. -/
def strContains (s pat : String) : Bool :=
  charsInfix pat.toList s.toList

/-- The `CodeMetrics` interface (identical shape in `AlgoNebulaContent.tsx`
and the hook file). -/
structure CodeMetrics where
  lines : Nat
  functions : Nat
  comments : Nat
  complexity : Nat
  language : String
deriving DecidableEq

/-- The `CodeAnalysis` interface of `AlgoNebulaContent.tsx`
(the shape passed to `setLatestAnalysis` by `performLocalAnalysis`). -/
structure CodeAnalysis where
  evolution_points : Nat
  complexity_score : Nat
  style_feedback : String
  suggestions : List String
  timestamp : String
deriving DecidableEq

/-- Embedding of `performLocalAnalysis(codeText, metrics)` from
`AlgoNebulaContent.tsx`.  The source computes five feature flags by
substring tests, classifies by `codeText.length` into the
empty / embryonic / developing tiers, adds per-feature bonuses and
finally clamps with `Math.min(100, Math.max(0, _))` resp.
`Math.min(10, Math.max(0, _))`.  The source also computes an unused
`lineCount` and dead initial values (`styleScore = "local-analysis"`,
`evolutionPoints = 0`, `complexityScore = 1`) that every branch
overwrites; these have no effect and are not reproduced.  The
`metrics` parameter is unused in the source body as well.  `now`
stands for `new Date().toISOString()`, the only impure input. -/
def performLocalAnalysis (codeText : String) (_metrics : CodeMetrics) (now : String) :
    CodeAnalysis :=
  let hasGoodStructure := strContains codeText "function" || strContains codeText "def " ||
    strContains codeText "=>" || strContains codeText "class "
  let hasComments := strContains codeText "//" || strContains codeText "#" ||
    strContains codeText "/*"
  let hasOptimization := strContains codeText "for" || strContains codeText "while" ||
    strContains codeText "map" || strContains codeText "reduce"
  let hasErrorHandling := strContains codeText "try" || strContains codeText "catch" ||
    strContains codeText "except"
  let hasAsync := strContains codeText "async" || strContains codeText "await" ||
    strContains codeText "Promise"
  let codeLength := codeText.length
  let baseSuggestions : List String :=
    if codeLength = 0 then ["🎯 Start coding to see your planet evolve!"]
    else if codeLength < 50 then ["🌱 Great start! Your planet is beginning to form..."]
    else ["⚡ Local analysis: Your code is taking shape!"]
  let styleScore : String :=
    if codeLength = 0 then "empty"
    else if codeLength < 50 then "embryonic"
    else "developing"
  let basePoints : Nat :=
    if codeLength = 0 then 0
    else if codeLength < 50 then max 1 (codeLength / 5)
    else codeLength / 3
  let baseComplexity : Nat :=
    if codeLength = 0 then 0
    else if codeLength < 50 then 1
    else min 8 (codeLength / 15)
  let suggestions1 := baseSuggestions ++
    (if hasGoodStructure then ["🏗️ Excellent code structure detected!"] else [])
  let points1 := basePoints + (if hasGoodStructure then 10 else 0)
  let complexity1 := baseComplexity + (if hasGoodStructure then 2 else 0)
  let suggestions2 := suggestions1 ++
    (if hasComments then ["📚 Great documentation! Clean code wins!"] else [])
  let points2 := points1 + (if hasComments then 8 else 0)
  let complexity2 := complexity1 + (if hasComments then 1 else 0)
  let suggestions3 := suggestions2 ++
    (if hasOptimization then ["⚡ Efficient algorithms detected!"] else [])
  let points3 := points2 + (if hasOptimization then 12 else 0)
  let complexity3 := complexity2 + (if hasOptimization then 3 else 0)
  let suggestions4 := suggestions3 ++
    (if hasErrorHandling then ["🛡️ Robust error handling! Well done!"] else [])
  let points4 := points3 + (if hasErrorHandling then 15 else 0)
  let complexity4 := complexity3 + (if hasErrorHandling then 2 else 0)
  let suggestions5 := suggestions4 ++
    (if hasAsync then ["🚀 Async patterns found! Modern coding!"] else [])
  let points5 := points4 + (if hasAsync then 10 else 0)
  let complexity5 := complexity4 + (if hasAsync then 2 else 0)
  let evolutionPoints := min 100 (max 0 points5)
  let complexityScore := min 10 (max 0 complexity5)
  { evolution_points := evolutionPoints
    complexity_score := complexityScore
    style_feedback := styleScore
    suggestions := suggestions5
    timestamp := now }

/-- C1: for the empty code text, the Local Fallback Analyzer produces
`evolutionPoints = 0`, `complexityScore = 0` and `styleFeedback = "empty"`,
for every metrics value and timestamp. -/
theorem performLocalAnalysis_empty (m : CodeMetrics) (now : String) :
    (performLocalAnalysis "" m now).evolution_points = 0 ∧
    (performLocalAnalysis "" m now).complexity_score = 0 ∧
    (performLocalAnalysis "" m now).style_feedback = "empty" := by
  refine ⟨?_, ?_, ?_⟩ <;> rfl

/-- C2: for every input, the Local Fallback Analyzer output satisfies
`0 ≤ evolutionPoints ≤ 100` and `0 ≤ complexityScore ≤ 10`. -/
theorem performLocalAnalysis_clamped (code : String) (m : CodeMetrics) (now : String) :
    0 ≤ (performLocalAnalysis code m now).evolution_points ∧
    (performLocalAnalysis code m now).evolution_points ≤ 100 ∧
    0 ≤ (performLocalAnalysis code m now).complexity_score ∧
    (performLocalAnalysis code m now).complexity_score ≤ 10 := by
  simp only [performLocalAnalysis]
  refine ⟨Nat.zero_le _, ?_, Nat.zero_le _, ?_⟩
  · exact Nat.min_le_left _ _
  · exact Nat.min_le_left _ _

/-- C3: any 60-character code text that contains `"function"` and `"//"`
and none of the loop, error-handling or async feature substrings is
classified in the developing tier with
`evolutionPoints = 60 / 3 + 10 + 8 = 38`. -/
theorem performLocalAnalysis_developing_scenario
    (code : String) (m : CodeMetrics) (now : String)
    (hlen : code.length = 60)
    (hfun : strContains code "function" = true)
    (hcom : strContains code "//" = true)
    (hfor : strContains code "for" = false)
    (hwhile : strContains code "while" = false)
    (hmap : strContains code "map" = false)
    (hreduce : strContains code "reduce" = false)
    (htry : strContains code "try" = false)
    (hcatch : strContains code "catch" = false)
    (hexcept : strContains code "except" = false)
    (hasync : strContains code "async" = false)
    (hawait : strContains code "await" = false)
    (hpromise : strContains code "Promise" = false) :
    (performLocalAnalysis code m now).style_feedback = "developing" ∧
    (performLocalAnalysis code m now).evolution_points = 38 := by
  simp [performLocalAnalysis, hlen, hfun, hcom, hfor, hwhile, hmap, hreduce,
    htry, hcatch, hexcept, hasync, hawait, hpromise]

/-- A concrete 60-character code text for the C3 scenario: it contains
`"function"` and a `"//"` comment and none of the loop, error-handling
or async substrings. -/
def devScenarioCode : String :=
  "function add(a, b)\n  return a + b\n// adds two numbers togeth"

/-- A throwaway metrics value (the analyzer ignores its metrics input). -/
def zeroMetrics : CodeMetrics :=
  { lines := 0, functions := 0, comments := 0, complexity := 0, language := "" }

/-- Witness for C3 at the concrete 60-character code text. -/
theorem performLocalAnalysis_developing_scenario_witness :
    (performLocalAnalysis devScenarioCode zeroMetrics "t").style_feedback = "developing" ∧
    (performLocalAnalysis devScenarioCode zeroMetrics "t").evolution_points = 38 :=
  performLocalAnalysis_developing_scenario devScenarioCode zeroMetrics "t"
    (by decide) (by decide) (by decide) (by decide) (by decide) (by decide)
    (by decide) (by decide) (by decide) (by decide) (by decide) (by decide)
    (by decide)

/-- The `Achievement` interface of `src/lib/api.ts`. -/
structure Achievement where
  id : String
  title : String
  description : String
  icon : String
  points : Nat
  rarity : String
  unlocked_at : String
deriving DecidableEq

/-- The `AnalysisResult` interface of `src/lib/api.ts`; the two `Record`
fields are embedded as association lists. -/
structure AnalysisResult where
  skill_deltas : List (String × Int)
  coding_style : String
  language : String
  behavioral_patterns : List (String × Int)
  evolution_points : Nat
  session_quality : String
deriving DecidableEq

/-- The inbound WebSocket frames dispatched by `handleMessage` in the
real-time analysis hook, discriminated by `data.type`; `unknown` covers
every other type tag (the switch has no default case, so such frames
change no state beyond the updates log). -/
inductive InboundMsg where
  | connected
  | analysis_result (result : AnalysisResult) (latency_ms : Nat)
  | achievement_unlocked (achievement : Achievement)
  | planet_evolution (points_earned : Nat)
  | session_started
  | session_ended
  | error (message : String)
  | unknown (tag : String)
deriving DecidableEq

/-- A raw inbound frame: the dispatched message plus the optional
`data.timestamp` field. -/
structure InboundFrame where
  msg : InboundMsg
  timestamp : Option String
deriving DecidableEq

/-- One entry of the hook `updates` log (`RealTimeUpdate` in the hook
source: the frame and the timestamp chosen for it). -/
structure RealTimeUpdate where
  msg : InboundMsg
  timestamp : String
deriving DecidableEq

/-- The state of `useRealTimeAnalysis` in the hook source file: the
`useState` values plus the `analysisCount` and `sessionStartTime` refs. -/
structure HookState where
  isConnected : Bool
  updates : List RealTimeUpdate
  latestAnalysis : Option AnalysisResult
  recentAchievements : List Achievement
  sessionActive : Bool
  connectionError : Option String
  sessionStartTime : Option String
  analysisCount : Nat
deriving DecidableEq

/-- The initial hook state, from the `useState` / `useRef` initializers. -/
def initialHookState : HookState :=
  { isConnected := false
    updates := []
    latestAnalysis := none
    recentAchievements := []
    sessionActive := false
    connectionError := none
    sessionStartTime := none
    analysisCount := 0 }

/-- Embedding of `handleMessage` from the real-time analysis hook.
Every frame first appends an update entry with
`setUpdates(prev => [...prev.slice(-49), update])`
(`prev.slice(-49)` keeps the last at most 49 entries, embedded as
`drop (length - 49)` with truncated subtraction), with timestamp
`data.timestamp || now`; the switch then updates the state slice for
the frame type.  `now` stands for `new Date().toISOString()` resp.
`new Date()` for `sessionStartTime`. -/
def handleMessage (s : HookState) (now : String) (f : InboundFrame) : HookState :=
  let update : RealTimeUpdate := { msg := f.msg, timestamp := f.timestamp.getD now }
  let updates := s.updates.drop (s.updates.length - 49) ++ [update]
  match f.msg with
  | .connected =>
      { s with updates := updates, isConnected := true, connectionError := none }
  | .analysis_result r _latency =>
      { s with updates := updates, latestAnalysis := some r,
               analysisCount := s.analysisCount + 1 }
  | .achievement_unlocked a =>
      { s with updates := updates,
               recentAchievements := a :: s.recentAchievements.take 9 }
  | .planet_evolution _ =>
      { s with updates := updates }
  | .session_started =>
      { s with updates := updates, sessionActive := true,
               sessionStartTime := some now }
  | .session_ended =>
      { s with updates := updates, sessionActive := false,
               sessionStartTime := none, analysisCount := 0 }
  | .error m =>
      { s with updates := updates, connectionError := some m }
  | .unknown _ =>
      { s with updates := updates }

/-- The inbound frame carrying one unlocked achievement. -/
def achFrame (a : Achievement) : InboundFrame :=
  { msg := .achievement_unlocked a, timestamp := none }

/-- Processing a list of achievement frames in arrival order. -/
def runAchievements (s : HookState) (now : String) (as : List Achievement) : HookState :=
  as.foldl (fun st a => handleMessage st now (achFrame a)) s

/-- Appending a clipped suffix and clipping again is the same as
clipping the full concatenation. -/
theorem take_append_take_eq {α : Type} (xs ys : List α) (n : Nat) :
    (xs ++ ys.take n).take n = (xs ++ ys).take n := by
  rw [List.take_append_eq_append_take, List.take_append_eq_append_take,
    List.take_take]
  rw [Nat.min_eq_left (Nat.sub_le n xs.length)]

/-- The achievement branch of `handleMessage` prepends the new
achievement and keeps the first nine old ones. -/
theorem handleMessage_achievement (s : HookState) (now : String) (a : Achievement) :
    (handleMessage s now (achFrame a)).recentAchievements
      = a :: s.recentAchievements.take 9 := rfl

/-- Folding achievement frames over a state whose buffer is within
capacity yields the clipped reversed arrival list in front of the old
buffer. -/
theorem runAchievements_recent (now : String) :
    ∀ (as : List Achievement) (s : HookState), s.recentAchievements.length ≤ 10 →
      (runAchievements s now as).recentAchievements
        = (as.reverse ++ s.recentAchievements).take 10 := by
  intro as
  induction as with
  | nil =>
    intro s h
    simpa [runAchievements] using (List.take_of_length_le h).symm
  | cons a as ih =>
    intro s h
    have hlen : (handleMessage s now (achFrame a)).recentAchievements.length ≤ 10 := by
      rw [handleMessage_achievement]
      simp only [List.length_cons, List.length_take]
      omega
    have hrun : runAchievements s now (a :: as)
        = runAchievements (handleMessage s now (achFrame a)) now as := rfl
    rw [hrun, ih _ hlen, handleMessage_achievement]
    have hcons : a :: s.recentAchievements.take 9
        = (a :: s.recentAchievements).take 10 := by
      rw [show (10 : Nat) = 9 + 1 from rfl, List.take_succ_cons]
    rw [hcons, take_append_take_eq, List.reverse_cons, List.append_assoc]
    rfl

/-- C4: the achievement buffer is bounded by its capacity 10: each
arriving achievement is prepended and the buffer truncated to ten
entries, and after processing any arrival list from an empty buffer the
buffer is exactly the most recent ten achievements, most recent first
(the reversed arrival list clipped to ten); with more than ten arrivals
it holds exactly ten entries. -/
theorem achievement_buffer_bounded (s : HookState) (now : String)
    (as : List Achievement) (h0 : s.recentAchievements = []) :
    (∀ (st : HookState) (a : Achievement),
      (handleMessage st now (achFrame a)).recentAchievements
        = a :: st.recentAchievements.take 9) ∧
    (runAchievements s now as).recentAchievements.length ≤ 10 ∧
    (runAchievements s now as).recentAchievements = as.reverse.take 10 ∧
    (10 < as.length → (runAchievements s now as).recentAchievements.length = 10) := by
  have key := runAchievements_recent now as s (by rw [h0]; simp)
  rw [h0, List.append_nil] at key
  refine ⟨fun st a => rfl, ?_, key, ?_⟩
  · rw [key, List.length_take]
    exact Nat.min_le_left _ _
  · intro h
    rw [key, List.length_take, List.length_reverse]
    omega

/-- Eleven distinct achievements, for exercising the capacity bound. -/
def elevenAchievements : List Achievement :=
  (List.range 11).map fun i =>
    { id := toString i, title := "", description := "", icon := "",
      points := i, rarity := "", unlocked_at := "" }

/-- Witness for C4: from the initial (empty) buffer, after eleven
arrivals the buffer is the ten most recent in arrival order and has
length exactly ten. -/
theorem achievement_buffer_bounded_witness :
    (runAchievements initialHookState "t" elevenAchievements).recentAchievements
      = elevenAchievements.reverse.take 10 ∧
    (runAchievements initialHookState "t" elevenAchievements).recentAchievements.length
      = 10 :=
  ⟨(achievement_buffer_bounded initialHookState "t" elevenAchievements rfl).2.2.1,
   (achievement_buffer_bounded initialHookState "t" elevenAchievements rfl).2.2.2
     (by decide)⟩

/-- Every branch of `handleMessage` stores the same updates log: the
last at most 49 old entries followed by the new entry. -/
theorem handleMessage_updates (s : HookState) (now : String) (f : InboundFrame) :
    (handleMessage s now f).updates
      = s.updates.drop (s.updates.length - 49)
        ++ [{ msg := f.msg, timestamp := f.timestamp.getD now }] := by
  rcases f with ⟨m, ts⟩
  cases m <;> rfl

/-- Length accounting for one `handleMessage` step on the updates log. -/
theorem handleMessage_updates_length (s : HookState) (now : String) (f : InboundFrame) :
    (handleMessage s now f).updates.length = min (s.updates.length + 1) 50 := by
  rw [handleMessage_updates, List.length_append, List.length_drop]
  simp only [List.length_cons, List.length_nil]
  omega

/-- The updates-log bound is preserved by any sequence of frames. -/
theorem foldl_updates_le (now : String) :
    ∀ (fs : List InboundFrame) (s : HookState), s.updates.length ≤ 50 →
      (fs.foldl (fun st g => handleMessage st now g) s).updates.length ≤ 50 := by
  intro fs
  induction fs with
  | nil => intro s h; simpa using h
  | cons f fs ih =>
    intro s h
    have hstep := handleMessage_updates_length s now f
    exact ih _ (by rw [hstep]; exact Nat.min_le_right _ _)

/-- C10: the rolling updates log is bounded at 50 entries: every
inbound frame (of any type, unknown ones included) appends one entry at
the end, one step turns a log of length `n` into one of length
`min (n + 1) 50`, a full log drops its oldest entry, and from the
initial state no frame sequence ever pushes the log past 50 entries. -/
theorem updates_log_bounded (s : HookState) (now : String) (f : InboundFrame) :
    (handleMessage s now f).updates.length = min (s.updates.length + 1) 50 ∧
    (handleMessage s now f).updates.getLast?
      = some { msg := f.msg, timestamp := f.timestamp.getD now } ∧
    (s.updates.length = 50 →
      (handleMessage s now f).updates
        = s.updates.drop 1
          ++ [{ msg := f.msg, timestamp := f.timestamp.getD now }]) ∧
    (∀ fs : List InboundFrame,
      (fs.foldl (fun st g => handleMessage st now g) initialHookState).updates.length
        ≤ 50) := by
  refine ⟨handleMessage_updates_length s now f, ?_, ?_, ?_⟩
  · rw [handleMessage_updates]
    exact List.getLast?_concat _
  · intro h
    rw [handleMessage_updates, h]
  · intro fs
    exact foldl_updates_le now fs initialHookState (by simp [initialHookState])

/-- A hook state whose updates log is exactly full (50 entries). -/
def fullLogState : HookState :=
  { initialHookState with
      updates := List.replicate 50 { msg := .connected, timestamp := "t0" } }

/-- Witness for C10 at a full log: the oldest entry is dropped and the
new entry appended. -/
theorem updates_log_bounded_witness :
    (handleMessage fullLogState "t1" { msg := .unknown "mystery", timestamp := none }).updates
      = fullLogState.updates.drop 1
        ++ [{ msg := .unknown "mystery", timestamp := (none : Option String).getD "t1" }] :=
  (updates_log_bounded fullLogState "t1"
    { msg := .unknown "mystery", timestamp := none }).2.2.1 (by simp [fullLogState])

/-- The `SessionData` config of the hook `startSession`
(`planet_id`, optional `project_name` and `language`). -/
structure SessionData where
  planet_id : String
  project_name : Option String
  language : Option String
deriving DecidableEq

/-- Outbound WebSocket frames built by `src/lib/api.ts`
(`heartbeat`, `code_analysis`, `start_session`, `end_session`),
each carrying the `new Date().toISOString()` timestamp. -/
inductive OutMessage where
  | heartbeat (timestamp : String)
  | code_analysis (metrics : CodeMetrics) (timestamp : String)
  | start_session (data : SessionData) (timestamp : String)
  | end_session (duration_seconds : Nat) (timestamp : String)
deriving DecidableEq

/-- The socket-related state of the `PlanetForgeAPI` client:
whether `this.websocket` is non-null with `readyState === OPEN`,
and the `reconnectAttempts` counter. -/
structure WSClient where
  socketOpen : Bool
  reconnectAttempts : Nat
deriving DecidableEq

/-- Embedding of `sendWebSocketMessage` from `src/lib/api.ts`: when the
socket is open the message is serialized and transmitted; otherwise the
call is a guarded no-op that only emits a console warning.  The result
is the list of transmitted frames and the warning, if any; the client
state is untouched and the function is total (the source path contains
no `throw`). -/
def sendWebSocketMessage (c : WSClient) (m : OutMessage) :
    List OutMessage × Option String :=
  if c.socketOpen then ([m], none)
  else ([], some "WebSocket not connected, cannot send message")

/-- The whole client-side system: the API client socket state and the
hook state (connection flag, analysis cache, achievement buffer,
session flags and counters). -/
structure SystemState where
  client : WSClient
  hook : HookState
deriving DecidableEq

/-- `send` at the system level: `sendWebSocketMessage` reads only the
socket and writes nothing, so the hook state (analysis result cache,
achievement buffer, session stats) passes through unchanged. -/
def systemSend (sys : SystemState) (m : OutMessage) :
    SystemState × List OutMessage × Option String :=
  let (out, warn) := sendWebSocketMessage sys.client m
  (sys, out, warn)

/-- Embedding of `planetForgeAPI.startSession` from `src/lib/api.ts`:
a `start_session` frame through the guarded send. -/
def apiStartSession (c : WSClient) (d : SessionData) (now : String) :
    List OutMessage × Option String :=
  sendWebSocketMessage c (.start_session d now)

/-- Embedding of the hook `startSession`: it throws
`Error("WebSocket not connected")` when the hook connected flag is
false, and otherwise forwards the config to
`planetForgeAPI.startSession`.  The source mutates no hook state on
this path (in particular neither `sessionActive` nor
`sessionStartTime`), so the success case returns the unchanged system
state together with the transmitted frames. -/
def hookStartSession (sys : SystemState) (d : SessionData) (now : String) :
    Except String (SystemState × List OutMessage) :=
  if sys.hook.isConnected = false then
    .error "WebSocket not connected"
  else
    .ok (sys, (apiStartSession sys.client d now).1)

/-- C6: `startSession` while not connected fails with the explicit
"not connected" error; the error path returns before any send, so no
start-session frame is transmitted and no hook state (in particular
`sessionActive`) changes. -/
theorem startSession_disconnected_fails (sys : SystemState) (d : SessionData)
    (now : String) (h : sys.hook.isConnected = false) :
    hookStartSession sys d now = .error "WebSocket not connected" := by
  simp [hookStartSession, h]

/-- A disconnected system state: socket closed, hook flag false,
no active session. -/
def disconnectedSystem : SystemState :=
  { client := { socketOpen := false, reconnectAttempts := 0 }
    hook := initialHookState }

/-- A session config used in concrete runs. -/
def sampleSession : SessionData :=
  { planet_id := "planet-1", project_name := none, language := some "ts" }

/-- Witness for C6 at the disconnected system state. -/
theorem startSession_disconnected_fails_witness :
    hookStartSession disconnectedSystem sampleSession "t"
      = .error "WebSocket not connected" :=
  startSession_disconnected_fails disconnectedSystem sampleSession "t" (by rfl)

/-- C7: `send` while the socket is not open is a guarded no-op: it is a
total function (the source never throws on this path), transmits
nothing, surfaces exactly the warning string, and returns the system
state unchanged, so the latest analysis, the achievement buffer and the
session counters are all untouched. -/
theorem send_disconnected_noop (sys : SystemState) (m : OutMessage)
    (h : sys.client.socketOpen = false) :
    systemSend sys m
      = (sys, [], some "WebSocket not connected, cannot send message") ∧
    (systemSend sys m).1.hook.latestAnalysis = sys.hook.latestAnalysis ∧
    (systemSend sys m).1.hook.recentAchievements = sys.hook.recentAchievements ∧
    (systemSend sys m).1.hook.analysisCount = sys.hook.analysisCount ∧
    (systemSend sys m).1.hook.sessionActive = sys.hook.sessionActive := by
  refine ⟨?_, rfl, rfl, rfl, rfl⟩
  simp [systemSend, sendWebSocketMessage, h]

/-- Witness for C7 at the disconnected system state. -/
theorem send_disconnected_noop_witness :
    systemSend disconnectedSystem (.heartbeat "t")
      = (disconnectedSystem, [], some "WebSocket not connected, cannot send message") :=
  (send_disconnected_noop disconnectedSystem (.heartbeat "t") (by rfl)).1

/-- A connected system state: socket open, hook connected flag true,
no active session yet. -/
def connectedSystem : SystemState :=
  { client := { socketOpen := true, reconnectAttempts := 0 }
    hook := { initialHookState with isConnected := true } }

/-- C5 counterexample: in the hook source, a successful `startSession`
call only sends the start-session frame; it does not set
`sessionActive` or `sessionStartTime`.  Concretely, from a connected
state with an inactive session the call succeeds, returns the
unchanged state, and `sessionActive` is still `false` before any
inbound confirmation is processed — refuting the claim that `active`
is `true` immediately after the call. -/
theorem startSession_optimistic_counterexample :
    hookStartSession connectedSystem sampleSession "t0"
      = .ok (connectedSystem, [.start_session sampleSession "t0"]) ∧
    connectedSystem.hook.sessionActive = false ∧
    connectedSystem.hook.sessionStartTime = none := by
  refine ⟨?_, rfl, rfl⟩
  rfl

/-- C5 (amended): when `startSession` is called while the hook is
connected (and the socket open), it succeeds and sends the
start-session frame through the Connection Manager, leaving the hook
state — in particular `sessionActive` and `sessionStartTime` —
unchanged; `active` becomes true and `startedAt` is recorded only when
the inbound `session_started` confirmation is processed by
`handleMessage`. -/
theorem startSession_confirmation_sets_active (sys : SystemState) (d : SessionData)
    (now now2 : String) (hconn : sys.hook.isConnected = true)
    (hopen : sys.client.socketOpen = true) :
    hookStartSession sys d now = .ok (sys, [.start_session d now]) ∧
    (handleMessage sys.hook now2
      { msg := .session_started, timestamp := none }).sessionActive = true ∧
    (handleMessage sys.hook now2
      { msg := .session_started, timestamp := none }).sessionStartTime = some now2 := by
  refine ⟨?_, rfl, rfl⟩
  simp [hookStartSession, hconn, apiStartSession, sendWebSocketMessage, hopen]

/-- Witness for the amended C5 at the connected system state. -/
theorem startSession_confirmation_sets_active_witness :
    hookStartSession connectedSystem sampleSession "t0"
      = .ok (connectedSystem, [.start_session sampleSession "t0"]) ∧
    (handleMessage connectedSystem.hook "t1"
      { msg := .session_started, timestamp := none }).sessionActive = true ∧
    (handleMessage connectedSystem.hook "t1"
      { msg := .session_started, timestamp := none }).sessionStartTime = some "t1" :=
  startSession_confirmation_sets_active connectedSystem sampleSession "t0" "t1"
    (by rfl) (by rfl)

/-- `maxReconnectAttempts` field of the `PlanetForgeAPI` client. -/
def maxReconnectAttempts : Nat := 5

/-- What `attemptReconnect` does besides updating the counter: schedule
a retry after a backoff delay (milliseconds), or give up with the
terminal "Max reconnection attempts reached" condition. -/
inductive ReconnectAction where
  | scheduleRetry (delayMs : Nat)
  | giveUp
deriving DecidableEq

/-- Embedding of `attemptReconnect` from `src/lib/api.ts`: while the
counter is below the maximum it is incremented and a reconnect is
scheduled after `Math.pow(2, attempts) * 1000` milliseconds (computed
after the increment); once the maximum is reached the counter stays
put and the terminal condition is surfaced.  Returns the new counter
and the action taken. -/
def attemptReconnect (reconnectAttempts : Nat) : Nat × ReconnectAction :=
  if reconnectAttempts < maxReconnectAttempts then
    (reconnectAttempts + 1, .scheduleRetry (2 ^ (reconnectAttempts + 1) * 1000))
  else
    (reconnectAttempts, .giveUp)

/-- The `onopen` handler of `connectWebSocket` resets the counter:
`this.reconnectAttempts = 0`. -/
def onOpenReset (_reconnectAttempts : Nat) : Nat := 0

/-- C8: on an unexpected close, the manager retries with a delay of
`2 ^ attempt` seconds for the `attempt`-th consecutive retry (the
counter after increment), stops permanently with the terminal give-up
condition once the counter has reached the maximum of 5 (the counter
no longer changes, so every later close also gives up), a successful
open resets the counter to zero, and five consecutive failures from a
fresh connection drive the counter to exactly 5. -/
theorem reconnect_backoff (a : Nat) :
    (a < 5 → attemptReconnect a = (a + 1, .scheduleRetry (2 ^ (a + 1) * 1000))) ∧
    (5 ≤ a → attemptReconnect a = (a, .giveUp)) ∧
    onOpenReset a = 0 ∧
    ((fun x => (attemptReconnect x).1)^[5]) 0 = 5 := by
  refine ⟨?_, ?_, rfl, by decide⟩
  · intro h
    simp [attemptReconnect, maxReconnectAttempts, h]
  · intro h
    rw [attemptReconnect, if_neg (by simp [maxReconnectAttempts]; omega)]

/-- Witness for C8: the first retry is scheduled after 2 seconds, and
at a counter of 5 the manager gives up. -/
theorem reconnect_backoff_witness :
    attemptReconnect 0 = (1, .scheduleRetry 2000) ∧
    attemptReconnect 5 = (5, .giveUp) :=
  ⟨(reconnect_backoff 0).1 (by decide), (reconnect_backoff 5).2.1 (by decide)⟩

/-- Asynchronous callbacks of the api.ts socket client that can sit in
the browser event queue: a scheduled `connectWebSocket` call (from
`attemptReconnect`), a heartbeat timer tick (from `startHeartbeat`),
and delivery of a socket `close` event (the `onclose` handler). -/
inductive CMTask where
  | connect
  | heartbeatTick
  | closeEvent
deriving DecidableEq

/-- Frames observable on the wire for the heartbeat claim. -/
inductive WireFrame where
  | heartbeat
deriving DecidableEq

/-- Connection-manager state: whether `this.websocket` is non-null,
whether its `readyState` is OPEN, and the reconnect counter. -/
structure CMState where
  hasSocket : Bool
  socketOpen : Bool
  reconnectAttempts : Nat
deriving DecidableEq

/-- One event-loop callback of the api.ts client, run to completion.
`serverUp` is the environment assumption that a connection attempt
succeeds (the backend is reachable).
* `connect` is `connectWebSocket`: a no-op when a socket is already
  open; otherwise it creates the socket, and when the server is up the
  `onopen` handler resets the counter and `startHeartbeat` sends a
  heartbeat frame immediately and re-arms its timer; when the server is
  down the attempt ends in a `close` event.
* `heartbeatTick` is the `startHeartbeat` timer body: if the current
  socket is open it sends a heartbeat and re-arms, otherwise it does
  nothing.
* `closeEvent` is the `onclose` handler, which unconditionally calls
  `attemptReconnect` — the source does not distinguish an explicit
  `disconnectWebSocket` from an unexpected close. -/
def stepTask (serverUp : Bool) (s : CMState) :
    CMTask → CMState × List CMTask × List WireFrame
  | .connect =>
    if s.socketOpen then (s, [], [])
    else if serverUp then
      ({ hasSocket := true, socketOpen := true, reconnectAttempts := 0 },
       [.heartbeatTick], [.heartbeat])
    else
      ({ s with hasSocket := true, socketOpen := false }, [.closeEvent], [])
  | .heartbeatTick =>
    if s.socketOpen then (s, [.heartbeatTick], [.heartbeat]) else (s, [], [])
  | .closeEvent =>
    if s.reconnectAttempts < maxReconnectAttempts then
      ({ s with socketOpen := false,
                reconnectAttempts := s.reconnectAttempts + 1 }, [.connect], [])
    else
      ({ s with socketOpen := false }, [], [])

/-- Embedding of `disconnectWebSocket` from `src/lib/api.ts`: when a
socket exists it is closed and the reference nulled.  Closing the
socket makes the browser deliver its `close` event asynchronously, and
the source neither detaches the `onclose` handler nor records that the
close was requested, so the `closeEvent` callback is queued. -/
def disconnectWebSocket (s : CMState) : CMState × List CMTask :=
  if s.hasSocket then
    ({ s with hasSocket := false, socketOpen := false }, [.closeEvent])
  else (s, [])

/-- FIFO event-loop executor with fuel: runs queued callbacks in order,
appending newly scheduled ones, and collects every frame sent. -/
def runTasks (serverUp : Bool) : Nat → CMState → List CMTask → List WireFrame
  | 0, _, _ => []
  | _ + 1, _, [] => []
  | fuel + 1, s, t :: ts =>
    let step := stepTask serverUp s t
    step.2.2 ++ runTasks serverUp fuel step.1 (ts ++ step.2.1)

/-- A live connected client, as after a successful `connectWebSocket`. -/
def connectedCMState : CMState :=
  { hasSocket := true, socketOpen := true, reconnectAttempts := 0 }

/-- C9 is violated by the source: after an explicit
`disconnectWebSocket()` on a connected client, the socket close event
runs the `onclose` handler, which calls `attemptReconnect` (the source
does not distinguish an explicit disconnect from an unexpected close);
with the backend reachable the scheduled reconnect opens a fresh
socket, whose `onopen` handler starts the heartbeat — so a heartbeat
frame IS sent on the wire after the disconnect, where the claim
requires that none ever is. -/
theorem heartbeat_after_disconnect_bug :
    runTasks true 2 (disconnectWebSocket connectedCMState).1
      (disconnectWebSocket connectedCMState).2 = [.heartbeat] := by
  decide
